import Mathlib

/-!
Verification development for the `json-formatter-js` tree-node model
(`src/index.ts`).  The JSON value, the node state (open flag, depth budget,
rendered element, materialized children), and the public operations
(`render`, `toggleOpen`, `openAtDepth`, `appendChildren`, `removeChildren`,
`getInlinepreview`) are embedded as executable Lean definitions.

Modelling conventions:
* The DOM element of a node is reduced to the observable parts the
  specification talks about: whether the node has been rendered, the list of
  materialized child nodes inside its children container, and whether the
  root element currently carries the `open` class.
* `requestAnimationFrame` is modelled by its synchronous fallback
  (`window.requestAnimationFrame || function (cb) { cb(); return 0; }`):
  a scheduled callback runs immediately.  This is the degraded mode the
  source itself provides for environments without a frame clock.
* JavaScript `undefined` on optional configuration fields is modelled by
  `Option`; comparisons and slices against a possibly-undefined number keep
  the JavaScript semantics (any `<`/`>`/`>=` against `undefined` is false,
  `slice(0, undefined)` takes the whole array, a defaulted function
  parameter replaces an explicitly passed `undefined`).
-/

/-- A JSON value, as the formatter receives it: `null`, booleans, numbers,
strings, arrays and objects (an object is an ordered list of key/value
fields with distinct keys, matching JavaScript property order). -/
inductive Json where
  | null : Json
  | bool : Bool → Json
  | num : Int → Json
  | str : String → Json
  | arr : List Json → Json
  | obj : List (String × Json) → Json

mutual

/-- Structural size of a JSON value; used only as recursion fuel for the
recursive child construction (the source recursion terminates because each
child value is a strict subterm of its parent). -/
def Json.size : Json → Nat
  | .null => 1
  | .bool _ => 1
  | .num _ => 1
  | .str _ => 1
  | .arr es => sizeElems es + 1
  | .obj fs => sizeFields fs + 1

/-- Size of an array's element list. -/
def sizeElems : List Json → Nat
  | [] => 1
  | j :: rest => Json.size j + sizeElems rest + 1

/-- Size of an object's field list. -/
def sizeFields : List (String × Json) → Nat
  | [] => 1
  | kv :: rest => Json.size kv.2 + sizeFields rest + 1

end

/-- Field lookup on an object, modelling the member access `this.json[key]`
on a plain object; a missing key yields `undefined`, which the formatter
then treats like any other non-container value (modelled by `Json.null`). -/
def lookupField : List (String × Json) → String → Json
  | [], _ => Json.null
  | (k, v) :: rest, key => if k = key then v else lookupField rest key

/-- Modelled from the spec: the repository's `src/helpers.ts` is not under
`src/`; its `isObject` classifier is specified as "Object/array
classification is mutually exclusive with primitive classification" and the
node getter documents "In this context arrays are object as well", with
`null` not an object.  So a value is an object iff it is structurally an
object or an array. -/
def Json.isObject : Json → Bool
  | Json.obj _ => true
  | Json.arr _ => true
  | _ => false

/-- Models `Array.isArray(this.json)`. -/
def Json.isArray : Json → Bool
  | Json.arr _ => true
  | _ => false

/-- Models `this.json.length` for an array value (only read in the array
branches of the source). -/
def Json.arrayLength : Json → Nat
  | Json.arr es => es.length
  | _ => 0

/-- Models the element list of an array value (used by
`this.json.map(getPreview)`). -/
def Json.elements : Json → List Json
  | Json.arr es => es
  | _ => []

/-- Models `Object.keys(this.json)` for the values on which the source calls
it: field names in property order for objects, index strings for arrays. -/
def objectKeys : Json → List String
  | Json.obj fs => fs.map Prod.fst
  | Json.arr es => (List.range es.length).map (fun i => toString i)
  | _ => []

/-- Models the member access `this.json[key]`: field lookup on objects,
index access on arrays (a numeric key string indexes the element list),
`undefined` (modelled by `Json.null`) otherwise. -/
def childAt : Json → String → Json
  | Json.obj fs, k => lookupField fs k
  | Json.arr es, k =>
    match k.toNat? with
    | some i => es.getD i Json.null
    | none => Json.null
  | _, _ => Json.null

/-- The `JSONFormatterConfiguration` object.  Every option is optional in
the TypeScript interface; an absent (`undefined`) option is `none`.  The
comparator `sortPropertiesBy` returns a JavaScript number. -/
structure Config where
  hoverPreviewEnabled : Option Bool := none
  hoverCopyEnabled : Option Bool := none
  hoverPreviewArrayCount : Option Nat := none
  hoverPreviewFieldCount : Option Nat := none
  animateOpen : Option Bool := none
  animateClose : Option Bool := none
  theme : Option String := none
  useToJSON : Option Bool := none
  sortPropertiesBy : Option (String → String → Int) := none

/-- The source's `_defaultConfig` object (its `theme: null` is modelled by
`none`, since the source only ever tests the field for truthiness). -/
def defaultConfig : Config :=
  { hoverPreviewEnabled := some false
    hoverCopyEnabled := some true
    hoverPreviewArrayCount := some 100
    hoverPreviewFieldCount := some 5
    animateOpen := some true
    animateClose := some true
    theme := none
    useToJSON := some true
    sortPropertiesBy := none }

/-- A configuration object with every option unset, as a caller may pass. -/
def noOptionsConfig : Config := {}

/-- The constructor's "Setting default values for config object" block: it
writes defaults into the configuration for exactly the five options
`hoverPreviewEnabled`, `hoverCopyEnabled`, `hoverPreviewArrayCount`,
`hoverPreviewFieldCount` and `useToJSON` when they are `undefined`; the
remaining options (`animateOpen`, `animateClose`, `theme`,
`sortPropertiesBy`) are not touched. -/
def applyDefaults (c : Config) : Config :=
  { c with
    hoverPreviewEnabled := some (c.hoverPreviewEnabled.getD false)
    hoverCopyEnabled := some (c.hoverCopyEnabled.getD true)
    hoverPreviewArrayCount := some (c.hoverPreviewArrayCount.getD 100)
    hoverPreviewFieldCount := some (c.hoverPreviewFieldCount.getD 5)
    useToJSON := some (c.useToJSON.getD true) }

/-- Insertion of a key into a run of keys already placed by the comparator:
the key goes before the first element it compares `<= 0` against.  Together
with `sortKeysBy` this models `keys.sort(this.config.sortPropertiesBy)`
(JavaScript's sort is implementation-defined for inconsistent comparators;
a stable comparison sort is the faithful reading). -/
def insertKeyBy (cmp : String → String → Int) (k : String) : List String → List String
  | [] => [k]
  | x :: xs => if cmp k x ≤ 0 then k :: x :: xs else x :: insertKeyBy cmp k xs

/-- Stable comparison sort of the key list by the caller's comparator. -/
def sortKeysBy (cmp : String → String → Int) : List String → List String
  | [] => []
  | x :: xs => insertKeyBy cmp x (sortKeysBy cmp xs)

/-- The `keys` getter: `Object.keys(this.json)` when the value is an object
(arrays included), sorted by `sortPropertiesBy` when the value is not an
array and a comparator is configured; `[]` for non-objects. -/
def keysOf (cfg : Config) (json : Json) : List String :=
  if json.isObject then
    match cfg.sortPropertiesBy, json.isArray with
    | some cmp, false => sortKeysBy cmp (objectKeys json)
    | _, _ => objectKeys json
  else []

/-- The per-node state that survives between calls: the value, the `open`
depth budget, the (shared, already-defaulted) configuration, the key inside
the parent, the nullable `_isOpen` toggle state, and the observable parts
of `this.element` (`rendered` is whether the element exists, `openClass`
whether it carries the `open` CSS class). -/
structure NodeCore where
  json : Json
  opn : Int
  config : Config
  key : Option String
  isOpenRaw : Option Bool
  rendered : Bool
  openClass : Bool

/-- A formatter node: its persistent state plus the child nodes currently
materialized inside its children container. -/
inductive NodeState where
  | mk : NodeCore → List NodeState → NodeState

def NodeState.core : NodeState → NodeCore
  | .mk c _ => c

def NodeState.children : NodeState → List NodeState
  | .mk _ kids => kids

def NodeState.json (n : NodeState) : Json := n.core.json

def NodeState.opn (n : NodeState) : Int := n.core.opn

def NodeState.config (n : NodeState) : Config := n.core.config

def NodeState.key (n : NodeState) : Option String := n.core.key

def NodeState.isOpenRaw (n : NodeState) : Option Bool := n.core.isOpenRaw

def NodeState.rendered (n : NodeState) : Bool := n.core.rendered

def NodeState.openClass (n : NodeState) : Bool := n.core.openClass

def NodeState.setChildren : NodeState → List NodeState → NodeState
  | .mk c _, kids => .mk c kids

def NodeState.setIsOpenRaw : NodeState → Option Bool → NodeState
  | .mk c kids, v => .mk { c with isOpenRaw := v } kids

def NodeState.setOpn : NodeState → Int → NodeState
  | .mk c kids, v => .mk { c with opn := v } kids

def NodeState.setOpenClass : NodeState → Bool → NodeState
  | .mk c kids, v => .mk { c with openClass := v } kids

/-- The constructor key normalization: an empty-string key is padded with
quotes to stay visible (`if (this.key === \x27\x27) this.key = ...`). -/
def normKey : Option String → Option String
  | some "" => some "\"\""
  | k => k

/-- The constructor `new JSONFormatter(json, open, config, key)`: stores the
value, budget and key (normalized), applies the configuration defaults, and
touches no visual surface (`_isOpen` starts `null`, no element exists). -/
def construct (json : Json) (opn : Int) (cfg : Config) (key : Option String) :
    NodeState :=
  .mk ⟨json, opn, applyDefaults cfg, normKey key, none, false, false⟩ []

/-- The constructor together with the caller's configuration object as it
stands after construction: the node and the configuration share one
reference, so the second component is the node's own (defaulted)
configuration. -/
def constructShared (json : Json) (opn : Int) (cfg : Config)
    (key : Option String) : NodeState × Config :=
  let n := construct json opn cfg key
  (n, n.config)

/-- The `isOpen` getter: the explicit toggle state when set, otherwise
`this.open > 0`. -/
def NodeState.isOpen (n : NodeState) : Bool :=
  match n.isOpenRaw with
  | some b => b
  | none => decide (0 < n.opn)

/-- The `isArray` getter. -/
def NodeState.isArray (n : NodeState) : Bool := n.json.isArray

/-- The `isObject` getter (arrays count as objects). -/
def NodeState.isObject (n : NodeState) : Bool := n.json.isObject

/-- The `keys` getter on a node. -/
def NodeState.keys (n : NodeState) : List String := keysOf n.config n.json

/-- The `isEmptyObject` getter: `!this.keys.length && !this.isArray`. -/
def NodeState.isEmptyObject (n : NodeState) : Bool :=
  n.keys.isEmpty && !n.isArray

/-- The `isEmpty` getter:
`this.isEmptyObject || (this.keys && !this.keys.length && this.isArray)`
(`this.keys` is always a truthy array). -/
def NodeState.isEmpty (n : NodeState) : Bool :=
  n.isEmptyObject || (n.keys.isEmpty && n.isArray)

/-- One rendering pass over a node whose would-be children are already
known.  `render()` builds a fresh root element (so the node counts as
rendered and its children container starts empty), adds the `open` class
exactly when `isOpen` holds, and materializes the children (the final
`if (this.isObject && this.isOpen) this.appendChildren()`, whose body
additionally returns early on `isEmpty`). -/
def renderStep (n : NodeState) (kids : List NodeState) : NodeState :=
  .mk { n.core with rendered := true, openClass := n.isOpen }
    (if n.isObject && n.isOpen && !n.isEmpty then kids else [])

/-- Fuel-indexed recursive child construction.  With enough fuel (any
amount at least `sizeOf json`, see `buildKidsF_congr`) this computes, for
each key of `json`, the rendered subtree of
`new JSONFormatter(this.json[key], this.open - 1, this.config, key)`. -/
def buildKidsF : Nat → Config → Json → Int → List NodeState
  | 0, _, _, _ => []
  | fuel + 1, cfg, json, opn =>
    (keysOf cfg json).map (fun k =>
      renderStep (construct (childAt json k) (opn - 1) cfg (some k))
        (buildKidsF fuel (applyDefaults cfg) (childAt json k) (opn - 1)))

/-- The rendered child list of a node with value `json`, budget `opn` and
configuration `cfg`: one recursively rendered child per key, in key
order. -/
def buildKids (cfg : Config) (json : Json) (opn : Int) : List NodeState :=
  buildKidsF json.size cfg json opn

/-- The `render()` method, restricted to the observable state: the node
becomes rendered, carries the `open` class iff it is open, and (for open,
non-empty objects) materializes one rendered child per key. -/
def render (n : NodeState) : NodeState :=
  renderStep n (buildKids n.config n.json n.opn)

/-- The source's `MAX_ANIMATED_TOGGLE_ITEMS` flush threshold. -/
def MAX_ANIMATED_TOGGLE_ITEMS : Nat := 10

/-- The `addAChild` closure of the animated attach path, with
`requestAnimationFrame` replaced by its synchronous fallback: each step
appends the rendered child for `this.keys[index]`, then continues while
`index < this.keys.length`; once `index` exceeds the flush threshold the
recursion is direct instead of frame-paced, which under the synchronous
fallback is the same immediate call.  The fuel argument only bounds the
recursion; `keys.length` steps are always enough (see `addAChildLoop_eq`). -/
def addAChildLoop (cfg : Config) (json : Json) (opn : Int)
    (keys : List String) : Nat → Nat → List NodeState → List NodeState
  | 0, _, acc => acc
  | fuel + 1, index, acc =>
    let key := keys.getD index ""
    let acc' := acc ++ [render (construct (childAt json key) (opn - 1) cfg (some key))]
    if index + 1 < keys.length then
      if index + 1 > MAX_ANIMATED_TOGGLE_ITEMS then
        addAChildLoop cfg json opn keys fuel (index + 1) acc'
      else
        addAChildLoop cfg json opn keys fuel (index + 1) acc'
    else acc'

/-- The `appendChildren(animated)` method: no-op when the children
container does not exist (the node is unrendered; only reachable through
guarded call sites) or the node is empty; otherwise appends one rendered
child per key to the children container, either through the animated
`addAChild` loop or synchronously via `forEach`. -/
def appendChildren (n : NodeState) (animated : Bool) : NodeState :=
  if !n.rendered || n.isEmpty then n
  else if animated then
    n.setChildren
      (addAChildLoop n.config n.json n.opn n.keys n.keys.length 0 n.children)
  else
    n.setChildren (n.children ++ buildKids n.config n.json n.opn)

/-- The `removeAChild` closure of the animated detach path under the
synchronous `requestAnimationFrame` fallback: while children remain, the
first child is removed; the removal count only selects between frame-paced
and direct recursion, which the synchronous fallback makes identical. -/
def removeAChildLoop : Nat → List NodeState → List NodeState
  | _, [] => []
  | childrenRemoved, _ :: rest =>
    if childrenRemoved + 1 > MAX_ANIMATED_TOGGLE_ITEMS then
      removeAChildLoop (childrenRemoved + 1) rest
    else
      removeAChildLoop (childrenRemoved + 1) rest

/-- The `removeChildren(animated)` method: clears the children container,
one child at a time when animated, in one `innerHTML` wipe otherwise. -/
def removeChildren (n : NodeState) (animated : Bool) : NodeState :=
  if !n.rendered then n
  else if animated then n.setChildren (removeAChildLoop 0 n.children)
  else n.setChildren []

/-- The animation flag `toggleOpen` and `openAtDepth` pass to
`appendChildren`: `this.config.animateOpen`, where an `undefined` value is
replaced by the parameter default `false` of `appendChildren`. -/
def attachAnimatedFlag (n : NodeState) : Bool :=
  (n.config.animateOpen).getD false

/-- The animation flag `toggleOpen` passes to `removeChildren`:
`this.config.animateClose`, with `undefined` falling back to the parameter
default `false`. -/
def detachAnimatedFlag (n : NodeState) : Bool :=
  (n.config.animateClose).getD false

/-- The `toggleOpen()` method: flips the effective openness into the
explicit `_isOpen` state, and, when an element exists, attaches or
detaches children per the animation configuration and toggles the `open`
class. -/
def toggleOpen (n : NodeState) : NodeState :=
  let n1 := n.setIsOpenRaw (some (!n.isOpen))
  if n1.rendered then
    let n2 :=
      if n1.isOpen then appendChildren n1 (attachAnimatedFlag n1)
      else removeChildren n1 (detachAnimatedFlag n1)
    n2.setOpenClass (!n2.openClass)
  else n1

/-- The `openAtDepth(depth)` method: a negative depth is a no-op; otherwise
the budget becomes `depth`, the explicit open state becomes
`depth !== 0`, and, when an element exists, the children are cleared
synchronously and (for nonzero depth) re-attached per the animation
configuration, with the `open` class set accordingly. -/
def openAtDepth (n : NodeState) (depth : Int) : NodeState :=
  if depth < 0 then n
  else
    let n1 := (n.setOpn depth).setIsOpenRaw (some (decide (depth ≠ 0)))
    if n1.rendered then
      let n2 := removeChildren n1 false
      if depth = 0 then n2.setOpenClass false
      else (appendChildren n2 (attachAnimatedFlag n2)).setOpenClass true
    else n1

/-- JavaScript `a > b` where `b` may be `undefined`: comparison against
`undefined` is false. -/
def jsGt (a : Nat) : Option Nat → Bool
  | some b => decide (b < a)
  | none => false

/-- JavaScript `a >= b` where `b` may be `undefined`. -/
def jsGe (a : Nat) : Option Nat → Bool
  | some b => decide (b ≤ a)
  | none => false

/-- JavaScript `l.slice(0, b)` where `b` may be `undefined`: an `undefined`
end takes the whole array. -/
def jsSlice (l : List String) : Option Nat → List String
  | some b => l.take b
  | none => l

/-- The `kvs` local of `getInlinepreview`: the first
`hoverPreviewFieldCount` keys rendered as `key:preview` strings.  The
external `getPreview` collaborator (from the out-of-scope `helpers.ts`) is
a parameter `gp`. -/
def previewKVs (gp : Json → String) (cfg : Config) (json : Json) :
    List String :=
  (jsSlice (keysOf cfg json) cfg.hoverPreviewFieldCount).map
    (fun k => k ++ ":" ++ gp (childAt json k))

/-- The `ellipsis` local of `getInlinepreview`:
`keys.length >= this.config.hoverPreviewFieldCount ? ellipsis : empty`. -/
def previewEllipsis (cfg : Config) (json : Json) : String :=
  if jsGe (keysOf cfg json).length cfg.hoverPreviewFieldCount then "…" else ""

/-- The `getInlinepreview()` method: arrays longer than
`hoverPreviewArrayCount` collapse to an `Array[length]` summary, shorter
arrays list element previews in brackets; non-array values show the first
`hoverPreviewFieldCount` keys as `key:preview` pairs in braces with an
ellipsis when `keys.length >= hoverPreviewFieldCount`. -/
def getInlinepreview (gp : Json → String) (cfg : Config) (json : Json) :
    String :=
  if json.isArray then
    if jsGt json.arrayLength cfg.hoverPreviewArrayCount then
      "Array[" ++ toString json.arrayLength ++ "]"
    else
      "[" ++ String.intercalate ", " (json.elements.map gp) ++ "]"
  else
    "\x7b" ++ String.intercalate ", " (previewKVs gp cfg json) ++
      previewEllipsis cfg json ++ "\x7d"

/-- The specification's walkthrough value `\x7b"a":1,"b":[1,2,3]\x7d`, used
as a concrete witness input. -/
def demoValue : Json :=
  Json.obj [("a", Json.num 1), ("b", Json.arr [Json.num 1, Json.num 2, Json.num 3])]

/-- A twelve-field object, wide enough that the animated attach loop runs
past the flush threshold of 10; used as a concrete witness input. -/
def wideValue : Json :=
  Json.obj [("k01", Json.num 1), ("k02", Json.num 2), ("k03", Json.num 3),
    ("k04", Json.num 4), ("k05", Json.num 5), ("k06", Json.num 6),
    ("k07", Json.num 7), ("k08", Json.num 8), ("k09", Json.num 9),
    ("k10", Json.num 10), ("k11", Json.num 11), ("k12", Json.num 12)]

/-! Basic facts about the embedding, shared by the claim theorems. -/

@[simp] theorem NodeState.core_mk (c : NodeCore) (kids : List NodeState) :
    (NodeState.mk c kids).core = c := rfl

@[simp] theorem NodeState.children_mk (c : NodeCore) (kids : List NodeState) :
    (NodeState.mk c kids).children = kids := rfl

@[simp] theorem NodeState.setChildren_core (n : NodeState) (l : List NodeState) :
    (n.setChildren l).core = n.core := by cases n; rfl

@[simp] theorem NodeState.setChildren_children (n : NodeState) (l : List NodeState) :
    (n.setChildren l).children = l := by cases n; rfl

@[simp] theorem NodeState.setIsOpenRaw_core (n : NodeState) (v : Option Bool) :
    (n.setIsOpenRaw v).core = { n.core with isOpenRaw := v } := by cases n; rfl

@[simp] theorem NodeState.setIsOpenRaw_children (n : NodeState) (v : Option Bool) :
    (n.setIsOpenRaw v).children = n.children := by cases n; rfl

@[simp] theorem NodeState.setOpn_core (n : NodeState) (v : Int) :
    (n.setOpn v).core = { n.core with opn := v } := by cases n; rfl

@[simp] theorem NodeState.setOpn_children (n : NodeState) (v : Int) :
    (n.setOpn v).children = n.children := by cases n; rfl

@[simp] theorem NodeState.setOpenClass_core (n : NodeState) (v : Bool) :
    (n.setOpenClass v).core = { n.core with openClass := v } := by cases n; rfl

@[simp] theorem NodeState.setOpenClass_children (n : NodeState) (v : Bool) :
    (n.setOpenClass v).children = n.children := by cases n; rfl

theorem Json.size_pos (j : Json) : 1 ≤ j.size := by
  cases j <;> simp [Json.size]

theorem sizeElems_pos (es : List Json) : 1 ≤ sizeElems es := by
  cases es <;> simp [sizeElems]

theorem sizeFields_pos (fs : List (String × Json)) : 1 ≤ sizeFields fs := by
  cases fs <;> simp [sizeFields]

theorem size_lookupField_lt (fs : List (String × Json)) (k : String) :
    (lookupField fs k).size < (Json.obj fs).size := by
  induction fs with
  | nil => simp [lookupField, Json.size, sizeFields]
  | cons kv rest ih =>
    simp only [lookupField, Json.size, sizeFields] at *
    split
    · have := sizeFields_pos rest
      omega
    · have := Json.size_pos kv.2
      omega

theorem size_getD_lt (es : List Json) (i : Nat) :
    (es.getD i Json.null).size < (Json.arr es).size := by
  induction es generalizing i with
  | nil => simp [List.getD, Json.size, sizeElems]
  | cons e rest ih =>
    cases i with
    | zero =>
      have := sizeElems_pos rest
      simp only [List.getD_cons_zero, Json.size, sizeElems]
      omega
    | succ j =>
      have h := ih j
      have := Json.size_pos e
      simp only [List.getD_cons_succ, Json.size, sizeElems] at *
      omega

theorem size_childAt_lt {json : Json} (h : json.isObject = true) (k : String) :
    (childAt json k).size < json.size := by
  cases json with
  | obj fs => exact size_lookupField_lt fs k
  | arr es =>
    simp only [childAt]
    cases k.toNat? with
    | some i => exact size_getD_lt es i
    | none =>
      have := sizeElems_pos es
      simp [Json.size]
      omega
  | null => simp [Json.isObject] at h
  | bool b => simp [Json.isObject] at h
  | num m => simp [Json.isObject] at h
  | str s => simp [Json.isObject] at h

theorem isObject_of_mem_keysOf {cfg : Config} {json : Json} {k : String}
    (h : k ∈ keysOf cfg json) : json.isObject = true := by
  unfold keysOf at h
  split at h
  · assumption
  · simp at h

theorem applyDefaults_idem (c : Config) :
    applyDefaults (applyDefaults c) = applyDefaults c := rfl

theorem keysOf_applyDefaults (cfg : Config) (json : Json) :
    keysOf (applyDefaults cfg) json = keysOf cfg json := rfl

theorem construct_applyDefaults (json : Json) (opn : Int) (cfg : Config)
    (key : Option String) :
    construct json opn (applyDefaults cfg) key = construct json opn cfg key := by
  simp [construct, applyDefaults_idem]

@[simp] theorem construct_core (json : Json) (opn : Int) (cfg : Config)
    (key : Option String) :
    (construct json opn cfg key).core =
      ⟨json, opn, applyDefaults cfg, normKey key, none, false, false⟩ := rfl

@[simp] theorem construct_children (json : Json) (opn : Int) (cfg : Config)
    (key : Option String) : (construct json opn cfg key).children = [] := rfl

theorem buildKidsF_applyDefaults (fuel : Nat) (cfg : Config) (json : Json)
    (opn : Int) :
    buildKidsF fuel (applyDefaults cfg) json opn = buildKidsF fuel cfg json opn := by
  cases fuel with
  | zero => rfl
  | succ a =>
    simp only [buildKidsF, keysOf_applyDefaults, applyDefaults_idem,
      construct_applyDefaults]

theorem buildKidsF_congr (f₁ : Nat) :
    ∀ (f₂ : Nat) (cfg : Config) (json : Json) (opn : Int),
      json.size ≤ f₁ → json.size ≤ f₂ →
      buildKidsF f₁ cfg json opn = buildKidsF f₂ cfg json opn := by
  induction f₁ with
  | zero =>
    intro f₂ cfg json opn h1 _
    have := Json.size_pos json
    omega
  | succ a ih =>
    intro f₂ cfg json opn h1 h2
    cases f₂ with
    | zero =>
      have := Json.size_pos json
      omega
    | succ b =>
      simp only [buildKidsF]
      refine List.map_congr_left ?_
      intro k hk
      have hobj := isObject_of_mem_keysOf hk
      have hlt := size_childAt_lt hobj k
      have hrec := ih b (applyDefaults cfg) (childAt json k) (opn - 1)
        (by omega) (by omega)
      rw [hrec]

theorem buildKids_eq_map (cfg : Config) (json : Json) (opn : Int) :
    buildKids cfg json opn =
      (keysOf cfg json).map (fun k =>
        render (construct (childAt json k) (opn - 1) cfg (some k))) := by
  unfold buildKids
  rw [buildKidsF_congr json.size (json.size + 1) cfg json opn (le_refl _)
    (Nat.le_succ _)]
  simp only [buildKidsF]
  refine List.map_congr_left ?_
  intro k hk
  have hobj := isObject_of_mem_keysOf hk
  have hlt := size_childAt_lt hobj k
  unfold render
  congr 1
  unfold buildKids
  show buildKidsF _ (applyDefaults cfg) _ _ =
    buildKidsF _ ((construct (childAt json k) (opn - 1) cfg (some k)).config) _ _
  have hc : (construct (childAt json k) (opn - 1) cfg (some k)).config =
      applyDefaults cfg := rfl
  rw [hc]
  exact buildKidsF_congr json.size (childAt json k).size (applyDefaults cfg)
    (childAt json k) (opn - 1) (by omega) (by omega)

theorem removeAChildLoop_eq (cnt : Nat) (l : List NodeState) :
    removeAChildLoop cnt l = [] := by
  induction l generalizing cnt with
  | nil => rfl
  | cons x rest ih =>
    simp only [removeAChildLoop]
    split
    · exact ih _
    · exact ih _

theorem addAChildLoop_eq (cfg : Config) (json : Json) (opn : Int)
    (keys : List String) (fuel : Nat) :
    ∀ (index : Nat) (acc : List NodeState),
      keys.length - index ≤ fuel → index < keys.length →
      addAChildLoop cfg json opn keys fuel index acc =
        acc ++ (keys.drop index).map (fun k =>
          render (construct (childAt json k) (opn - 1) cfg (some k))) := by
  induction fuel with
  | zero =>
    intro index acc h1 h2
    omega
  | succ a ih =>
    intro index acc h1 h2
    simp only [addAChildLoop]
    rw [List.getD_eq_getElem keys "" h2, List.drop_eq_getElem_cons h2,
      List.map_cons]
    by_cases hlt : index + 1 < keys.length
    · have hrec := ih (index + 1)
        (acc ++ [render (construct (childAt json keys[index]) (opn - 1) cfg
          (some keys[index]))]) (by omega) hlt
      rw [if_pos hlt]
      split
      · rw [hrec]; simp
      · rw [hrec]; simp
    · have hend : index + 1 = keys.length := by omega
      rw [if_neg hlt, hend, List.drop_length]
      simp

theorem NodeState.isEmpty_eq_keys (n : NodeState) :
    n.isEmpty = n.keys.isEmpty := by
  unfold NodeState.isEmpty NodeState.isEmptyObject
  cases h : n.isArray <;> simp [h]

theorem appendChildren_core (n : NodeState) (b : Bool) :
    (appendChildren n b).core = n.core := by
  unfold appendChildren
  split
  · rfl
  · split <;> simp

theorem removeChildren_core (n : NodeState) (b : Bool) :
    (removeChildren n b).core = n.core := by
  unfold removeChildren
  split
  · rfl
  · split <;> simp

theorem removeChildren_children_of_rendered (n : NodeState) (b : Bool)
    (hr : n.rendered = true) : (removeChildren n b).children = [] := by
  unfold removeChildren
  rw [hr]
  simp [removeAChildLoop_eq]

theorem appendChildren_children_of (n : NodeState) (b : Bool)
    (hr : n.rendered = true) (he : n.isEmpty = false) :
    (appendChildren n b).children =
      n.children ++ buildKids n.config n.json n.opn := by
  have hkeys : n.keys.isEmpty = false := by
    rw [← NodeState.isEmpty_eq_keys, he]
  have hlen : 0 < n.keys.length :=
    List.length_pos.mpr (List.isEmpty_eq_false.mp hkeys)
  unfold appendChildren
  rw [hr, he]
  simp only [Bool.not_true, Bool.or_false, if_false]
  cases b with
  | false => simp
  | true =>
    rw [addAChildLoop_eq n.config n.json n.opn n.keys n.keys.length 0
      n.children (by omega) hlen]
    simp [buildKids_eq_map, NodeState.keys]

theorem render_core (n : NodeState) :
    (render n).core = { n.core with rendered := true, openClass := n.isOpen } :=
  rfl

theorem render_children (n : NodeState) :
    (render n).children =
      if n.isObject && n.isOpen && !n.isEmpty then
        buildKids n.config n.json n.opn
      else [] :=
  rfl

@[simp] theorem NodeState.json_def (n : NodeState) : n.json = n.core.json := rfl

@[simp] theorem NodeState.opn_def (n : NodeState) : n.opn = n.core.opn := rfl

@[simp] theorem NodeState.config_def (n : NodeState) :
    n.config = n.core.config := rfl

@[simp] theorem NodeState.key_def (n : NodeState) : n.key = n.core.key := rfl

@[simp] theorem NodeState.isOpenRaw_def (n : NodeState) :
    n.isOpenRaw = n.core.isOpenRaw := rfl

@[simp] theorem NodeState.rendered_def (n : NodeState) :
    n.rendered = n.core.rendered := rfl

@[simp] theorem NodeState.openClass_def (n : NodeState) :
    n.openClass = n.core.openClass := rfl

theorem NodeState.isOpen_eq (n : NodeState) :
    n.isOpen = match n.core.isOpenRaw with
      | some b => b
      | none => decide (0 < n.core.opn) := rfl

theorem NodeState.keys_eq (n : NodeState) :
    n.keys = keysOf n.core.config n.core.json := rfl

@[simp] theorem NodeState.isOpen_setIsOpenRaw_some (n : NodeState) (b : Bool) :
    (n.setIsOpenRaw (some b)).isOpen = b := by
  cases n; rfl

@[simp] theorem NodeState.isOpen_setOpenClass (n : NodeState) (v : Bool) :
    (n.setOpenClass v).isOpen = n.isOpen := by
  cases n; rfl

theorem isOpen_of_core_eq {m n : NodeState} (h : m.core = n.core) :
    m.isOpen = n.isOpen := by
  rw [NodeState.isOpen_eq, NodeState.isOpen_eq, h]

theorem isEmpty_of_core_eq {m n : NodeState} (h : m.core = n.core) :
    m.isEmpty = n.isEmpty := by
  unfold NodeState.isEmpty NodeState.isEmptyObject NodeState.keys
    NodeState.isArray
  simp [h]

theorem buildKids_applyDefaults (cfg : Config) (json : Json) (opn : Int) :
    buildKids (applyDefaults cfg) json opn = buildKids cfg json opn :=
  buildKidsF_applyDefaults json.size cfg json opn

theorem render_config (n : NodeState) : (render n).config = n.config := rfl

theorem render_rendered (n : NodeState) : (render n).rendered = true := rfl

theorem render_openClass (n : NodeState) : (render n).openClass = n.isOpen := rfl

theorem render_isOpen (n : NodeState) : (render n).isOpen = n.isOpen := rfl

theorem appendChildren_config (n : NodeState) (b : Bool) :
    (appendChildren n b).config = n.config := by
  simp [appendChildren_core]

theorem removeChildren_config (n : NodeState) (b : Bool) :
    (removeChildren n b).config = n.config := by
  simp [removeChildren_core]

theorem toggleOpen_config (n : NodeState) : (toggleOpen n).config = n.config := by
  simp only [toggleOpen]
  split
  · split <;> simp [appendChildren_core, removeChildren_core]
  · simp

theorem openAtDepth_config (n : NodeState) (d : Int) :
    (openAtDepth n d).config = n.config := by
  simp only [openAtDepth]
  split
  · rfl
  · split
    · split <;> simp [appendChildren_core, removeChildren_core]
    · simp

theorem toggleOpen_isOpen (n : NodeState) : (toggleOpen n).isOpen = !n.isOpen := by
  simp only [toggleOpen]
  split
  · split
    · rw [NodeState.isOpen_setOpenClass,
        isOpen_of_core_eq (appendChildren_core _ _),
        NodeState.isOpen_setIsOpenRaw_some]
    · rw [NodeState.isOpen_setOpenClass,
        isOpen_of_core_eq (removeChildren_core _ _),
        NodeState.isOpen_setIsOpenRaw_some]
  · rw [NodeState.isOpen_setIsOpenRaw_some]

theorem toggleOpen_rendered (n : NodeState) :
    (toggleOpen n).rendered = n.rendered := by
  simp only [toggleOpen]
  split
  · split <;> simp_all [appendChildren_core, removeChildren_core]
  · simp_all

theorem toggleOpen_children_of_open (n : NodeState) (hr : n.rendered = true)
    (ho : n.isOpen = true) : (toggleOpen n).children = [] := by
  simp only [toggleOpen]
  rw [ho]
  have h1 : (n.setIsOpenRaw (some (!true))).rendered = true := by
    simpa using hr
  rw [if_pos h1]
  have h2 : (n.setIsOpenRaw (some (!true))).isOpen = false := by simp
  rw [if_neg (by simp [h2])]
  rw [NodeState.setOpenClass_children]
  exact removeChildren_children_of_rendered _ _ h1

theorem isObject_of_keysOf_ne_nil {cfg : Config} {json : Json}
    (h : keysOf cfg json ≠ []) : json.isObject = true := by
  rcases List.exists_mem_of_ne_nil _ h with ⟨k, hk⟩
  exact isObject_of_mem_keysOf hk

theorem openAtDepth_zero_eq (n : NodeState) (hr : n.rendered = true) :
    openAtDepth n 0 =
      (removeChildren ((n.setOpn 0).setIsOpenRaw (some false)) false).setOpenClass
        false := by
  simp only [openAtDepth]
  rw [if_neg (by omega : ¬ (0:Int) < 0)]
  have hdec : decide ((0:Int) ≠ 0) = false := by decide
  rw [hdec]
  have h1 : ((n.setOpn 0).setIsOpenRaw (some false)).rendered = true := by
    simpa using hr
  rw [if_pos h1]
  simp

theorem openAtDepth_pos_eq (n : NodeState) (d : Int) (hr : n.rendered = true)
    (hd : 1 ≤ d) :
    openAtDepth n d =
      (appendChildren
        (removeChildren ((n.setOpn d).setIsOpenRaw (some true)) false)
        (attachAnimatedFlag
          (removeChildren ((n.setOpn d).setIsOpenRaw (some true)) false))).setOpenClass
        true := by
  simp only [openAtDepth]
  rw [if_neg (by omega : ¬ d < 0)]
  have hdec : decide (d ≠ 0) = true := decide_eq_true (by omega)
  rw [hdec]
  have h1 : ((n.setOpn d).setIsOpenRaw (some true)).rendered = true := by
    simpa using hr
  rw [if_pos h1, if_neg (by omega : ¬ d = 0)]

/-- C1: the claim states that `isEmpty` is true iff the value is a
structural container (object or array) with zero members, and in particular
false for every primitive value.  The code computes `isEmptyObject` as
`!this.keys.length && !this.isArray`, which also holds for every primitive
(its `keys` list is empty and it is not an array), so `isEmpty` evaluates
to `true` on the primitive number `42`, contradicting both the claim and
the getter's own doc comments ("is this an empty object with no
properties?", "is this an empty object or array?"). -/
theorem c1_isEmpty_true_for_primitive :
    (Json.num 42).isObject = false ∧
    NodeState.isEmpty (construct (Json.num 42) 1 defaultConfig none) = true :=
  ⟨rfl, rfl⟩

/-- C5: for a non-array object value with `K` keys and configured
field-preview threshold `F`, the `kvs` list joined into the inline preview
has exactly `min K F` entries, the ellipsis marker appears iff `K >= F`,
and the object preview is assembled from exactly these two pieces inside
braces. -/
theorem c5_object_preview_counts (gp : Json → String) (cfg : Config)
    (fs : List (String × Json)) (F : Nat)
    (hF : cfg.hoverPreviewFieldCount = some F) :
    (previewKVs gp cfg (Json.obj fs)).length =
      min (keysOf cfg (Json.obj fs)).length F ∧
    (previewEllipsis cfg (Json.obj fs) = "…" ↔
      F ≤ (keysOf cfg (Json.obj fs)).length) ∧
    getInlinepreview gp cfg (Json.obj fs) =
      "\x7b" ++ String.intercalate ", " (previewKVs gp cfg (Json.obj fs)) ++
        previewEllipsis cfg (Json.obj fs) ++ "\x7d" := by
  refine ⟨?_, ?_, rfl⟩
  · unfold previewKVs jsSlice
    rw [hF]
    simp [Nat.min_comm]
  · unfold previewEllipsis jsGe
    rw [hF]
    by_cases h : F ≤ (keysOf cfg (Json.obj fs)).length <;> simp [h]

/-- C5 witness: a three-key object with the default threshold 5 shows all
three pairs and no ellipsis. -/
theorem c5_witness :
    defaultConfig.hoverPreviewFieldCount = some 5 ∧
    ((previewKVs (fun _ => "x") defaultConfig
        (Json.obj [("a", Json.num 1), ("b", Json.num 2), ("c", Json.num 3)])).length =
      min (keysOf defaultConfig
        (Json.obj [("a", Json.num 1), ("b", Json.num 2), ("c", Json.num 3)])).length 5 ∧
      (previewEllipsis defaultConfig
        (Json.obj [("a", Json.num 1), ("b", Json.num 2), ("c", Json.num 3)]) = "…" ↔
        5 ≤ (keysOf defaultConfig
          (Json.obj [("a", Json.num 1), ("b", Json.num 2), ("c", Json.num 3)])).length) ∧
      getInlinepreview (fun _ => "x") defaultConfig
        (Json.obj [("a", Json.num 1), ("b", Json.num 2), ("c", Json.num 3)]) =
        "\x7b" ++ String.intercalate ", " (previewKVs (fun _ => "x") defaultConfig
          (Json.obj [("a", Json.num 1), ("b", Json.num 2), ("c", Json.num 3)])) ++
          previewEllipsis defaultConfig
            (Json.obj [("a", Json.num 1), ("b", Json.num 2), ("c", Json.num 3)]) ++
          "\x7d") :=
  ⟨rfl, c5_object_preview_counts (fun _ => "x") defaultConfig
    [("a", Json.num 1), ("b", Json.num 2), ("c", Json.num 3)] 5 rfl⟩

/-- C6 counterexample: the claim says no ellipsis appears when the key
count `K` equals the threshold `F`; with `F = 2` and a two-key object the
code's `>=` comparison nevertheless produces the ellipsis. -/
theorem c6_counterexample :
    (keysOf { hoverPreviewFieldCount := some 2 }
        (Json.obj [("a", Json.num 1), ("b", Json.num 2)])).length = 2 ∧
    Config.hoverPreviewFieldCount { hoverPreviewFieldCount := some 2 } = some 2 ∧
    previewEllipsis { hoverPreviewFieldCount := some 2 }
        (Json.obj [("a", Json.num 1), ("b", Json.num 2)]) = "…" :=
  ⟨rfl, rfl, rfl⟩

/-- C6 amended: the ellipsis marker is appended when the key count is
greater than *or equal to* the configured field-preview count; at `K = F`
the ellipsis appears even though every key was shown. -/
theorem c6_ellipsis_at_threshold (cfg : Config) (fs : List (String × Json))
    (F : Nat) (hF : cfg.hoverPreviewFieldCount = some F) :
    previewEllipsis cfg (Json.obj fs) ≠ "" ↔
      F ≤ (keysOf cfg (Json.obj fs)).length := by
  unfold previewEllipsis jsGe
  rw [hF]
  by_cases h : F ≤ (keysOf cfg (Json.obj fs)).length <;> simp [h]

/-- C6 amended witness: at `K = F = 2` the ellipsis is nonempty. -/
theorem c6_witness :
    Config.hoverPreviewFieldCount { hoverPreviewFieldCount := some 2 } = some 2 ∧
    (previewEllipsis { hoverPreviewFieldCount := some 2 }
        (Json.obj [("a", Json.num 1), ("b", Json.num 2)]) ≠ "" ↔
      2 ≤ (keysOf { hoverPreviewFieldCount := some 2 }
        (Json.obj [("a", Json.num 1), ("b", Json.num 2)])).length) :=
  ⟨rfl, c6_ellipsis_at_threshold { hoverPreviewFieldCount := some 2 }
    [("a", Json.num 1), ("b", Json.num 2)] 2 rfl⟩

/-- C7: for an array of length `L` and configured array-preview threshold
`T`, the inline preview is the bracketed element-wise preview when
`L <= T` and exactly the string `Array[L]` when `L > T`. -/
theorem c7_array_preview_threshold (gp : Json → String) (cfg : Config)
    (es : List Json) (T : Nat)
    (hT : cfg.hoverPreviewArrayCount = some T) :
    (es.length ≤ T →
      getInlinepreview gp cfg (Json.arr es) =
        "[" ++ String.intercalate ", " (es.map gp) ++ "]") ∧
    (T < es.length →
      getInlinepreview gp cfg (Json.arr es) =
        "Array[" ++ toString es.length ++ "]") := by
  unfold getInlinepreview jsGt
  rw [hT]
  constructor
  · intro h
    simp [Json.isArray, Json.arrayLength, Json.elements, Nat.not_lt.mpr h]
  · intro h
    simp [Json.isArray, Json.arrayLength, Json.elements, h]

/-- C7 witness: with threshold 2, a two-element array previews element-wise
and a three-element array previews as an `Array[3]` summary (the boundary
cases `L = T` and `L = T + 1` of the claim). -/
theorem c7_witness :
    Config.hoverPreviewArrayCount { hoverPreviewArrayCount := some 2 } = some 2 ∧
    ([Json.num 1, Json.num 2].length ≤ 2 →
      getInlinepreview (fun _ => "e") { hoverPreviewArrayCount := some 2 }
        (Json.arr [Json.num 1, Json.num 2]) =
        "[" ++ String.intercalate ", " ([Json.num 1, Json.num 2].map (fun _ => "e")) ++ "]") ∧
    (2 < [Json.num 1, Json.num 2, Json.num 3].length →
      getInlinepreview (fun _ => "e") { hoverPreviewArrayCount := some 2 }
        (Json.arr [Json.num 1, Json.num 2, Json.num 3]) =
        "Array[" ++ toString [Json.num 1, Json.num 2, Json.num 3].length ++ "]") :=
  ⟨rfl,
    (c7_array_preview_threshold (fun _ => "e") { hoverPreviewArrayCount := some 2 }
      [Json.num 1, Json.num 2] 2 rfl).1,
    (c7_array_preview_threshold (fun _ => "e") { hoverPreviewArrayCount := some 2 }
      [Json.num 1, Json.num 2, Json.num 3] 2 rfl).2⟩

/-- C8 counterexample: the claim says construction leaves the caller's
shared configuration object unchanged; constructing over a configuration
with every option unset writes defaults into it (`hoverPreviewEnabled`
becomes `some false`), so the shared object differs from the original. -/
theorem c8_counterexample :
    (constructShared (Json.num 1) 1 noOptionsConfig none).2 ≠ noOptionsConfig :=
  fun h => Option.noConfusion (congrArg Config.hoverPreviewEnabled h)

/-- C8 amended: construction is not pure with respect to the caller's
configuration: it writes defaults in place into the shared object for
exactly the unset options among `hoverPreviewEnabled`, `hoverCopyEnabled`,
`hoverPreviewArrayCount`, `hoverPreviewFieldCount` and `useToJSON`, leaves
`animateOpen`, `animateClose`, `theme` and `sortPropertiesBy` exactly as
supplied, and the node keeps that same shared object.  The defaulting is
idempotent (so recursive child construction mutates nothing further), and
no later operation (`render`, `toggleOpen`, `openAtDepth`,
`appendChildren`, `removeChildren`) mutates the configuration. -/
theorem c8_construct_mutates_config_once (cfg : Config) (json : Json)
    (opn : Int) (key : Option String) (n : NodeState) (d : Int) (b : Bool) :
    (constructShared json opn cfg key).2.hoverPreviewEnabled =
      some (cfg.hoverPreviewEnabled.getD false) ∧
    (constructShared json opn cfg key).2.hoverCopyEnabled =
      some (cfg.hoverCopyEnabled.getD true) ∧
    (constructShared json opn cfg key).2.hoverPreviewArrayCount =
      some (cfg.hoverPreviewArrayCount.getD 100) ∧
    (constructShared json opn cfg key).2.hoverPreviewFieldCount =
      some (cfg.hoverPreviewFieldCount.getD 5) ∧
    (constructShared json opn cfg key).2.useToJSON =
      some (cfg.useToJSON.getD true) ∧
    (constructShared json opn cfg key).2.animateOpen = cfg.animateOpen ∧
    (constructShared json opn cfg key).2.animateClose = cfg.animateClose ∧
    (constructShared json opn cfg key).2.theme = cfg.theme ∧
    (constructShared json opn cfg key).2.sortPropertiesBy =
      cfg.sortPropertiesBy ∧
    (constructShared json opn cfg key).1.config =
      (constructShared json opn cfg key).2 ∧
    applyDefaults (applyDefaults cfg) = applyDefaults cfg ∧
    (render n).config = n.config ∧
    (toggleOpen n).config = n.config ∧
    (openAtDepth n d).config = n.config ∧
    (appendChildren n b).config = n.config ∧
    (removeChildren n b).config = n.config :=
  ⟨rfl, rfl, rfl, rfl, rfl, rfl, rfl, rfl, rfl, rfl, rfl,
    render_config n, toggleOpen_config n, openAtDepth_config n d,
    appendChildren_config n b, removeChildren_config n b⟩

/-- C9 counterexample: the claim says `animateOpen` defaults to true for
every node whose configuration does not specify it, so that `toggleOpen()`
on a rendered node takes the animated attach path.  With a caller-supplied
configuration that leaves `animateOpen` unset, the constructor does not
default it, and the flag `toggleOpen` passes to `appendChildren`
(`this.config.animateOpen`, an `undefined` that the parameter default
turns into `false`) selects the synchronous path. -/
theorem c9_counterexample :
    noOptionsConfig.animateOpen = none ∧
    (render (construct (Json.obj [("a", Json.num 1)]) 0 noOptionsConfig
      none)).rendered = true ∧
    attachAnimatedFlag (render (construct (Json.obj [("a", Json.num 1)]) 0
      noOptionsConfig none)) = false :=
  ⟨rfl, rfl, rfl⟩

/-- C9 amended: `animateOpen` is only defaulted through the constructor's
default configuration argument.  A node built over the default
configuration attaches through the animated path on `toggleOpen`, while a
node built over any caller-supplied configuration with `animateOpen` unset
passes `false` (the attach is synchronous), because the constructor's
defaulting block does not cover `animateOpen`. -/
theorem c9_animateOpen_not_defaulted (json : Json) (opn : Int)
    (key : Option String) (cfg : Config) (h : cfg.animateOpen = none) :
    attachAnimatedFlag (render (construct json opn cfg key)) = false ∧
    attachAnimatedFlag (render (construct json opn defaultConfig key)) = true := by
  constructor
  · show ((applyDefaults cfg).animateOpen).getD false = false
    have h2 : (applyDefaults cfg).animateOpen = cfg.animateOpen := rfl
    rw [h2, h]
    rfl
  · rfl

/-- C9 amended witness: instantiated at the all-unset configuration. -/
theorem c9_witness :
    noOptionsConfig.animateOpen = none ∧
    (attachAnimatedFlag (render (construct Json.null 1 noOptionsConfig
        none)) = false ∧
      attachAnimatedFlag (render (construct Json.null 1 defaultConfig
        none)) = true) :=
  ⟨rfl, c9_animateOpen_not_defaulted Json.null 1 none noOptionsConfig rfl⟩

/-- C2: toggling a rendered, effectively-closed node twice restores its
original effective openness and leaves the children container empty (the
second toggle detaches everything the first toggle attached). -/
theorem c2_toggleOpen_twice_restores (n : NodeState) (hr : n.rendered = true)
    (hc : n.isOpen = false) :
    (toggleOpen (toggleOpen n)).isOpen = n.isOpen ∧
    (toggleOpen (toggleOpen n)).children = [] := by
  constructor
  · rw [toggleOpen_isOpen, toggleOpen_isOpen, Bool.not_not]
  · refine toggleOpen_children_of_open (toggleOpen n) ?_ ?_
    · rw [toggleOpen_rendered]; exact hr
    · rw [toggleOpen_isOpen, hc]; rfl

/-- C2 witness: a rendered, closed two-field object node. -/
theorem c2_witness :
    (render (construct (Json.obj [("a", Json.num 1), ("b", Json.num 2)]) 0
      noOptionsConfig none)).rendered = true ∧
    (render (construct (Json.obj [("a", Json.num 1), ("b", Json.num 2)]) 0
      noOptionsConfig none)).isOpen = false ∧
    ((toggleOpen (toggleOpen (render (construct
        (Json.obj [("a", Json.num 1), ("b", Json.num 2)]) 0 noOptionsConfig
        none)))).isOpen =
      (render (construct (Json.obj [("a", Json.num 1), ("b", Json.num 2)]) 0
        noOptionsConfig none)).isOpen ∧
      (toggleOpen (toggleOpen (render (construct
        (Json.obj [("a", Json.num 1), ("b", Json.num 2)]) 0 noOptionsConfig
        none)))).children = []) :=
  ⟨rfl, rfl, c2_toggleOpen_twice_restores _ rfl rfl⟩

/-- C10: on a node that has not been rendered, `toggleOpen` only flips the
explicit open state and `openAtDepth` (for a nonnegative depth) only
updates the budget and open state; neither touches the children, and a
later `render()` gives the element the `open` class exactly per the
updated effective openness. -/
theorem c10_unrendered_ops_safe (n : NodeState) (d : Int)
    (hr : n.rendered = false) (hd : 0 ≤ d) :
    toggleOpen n = n.setIsOpenRaw (some (!n.isOpen)) ∧
    (toggleOpen n).children = n.children ∧
    openAtDepth n d = (n.setOpn d).setIsOpenRaw (some (decide (d ≠ 0))) ∧
    (openAtDepth n d).children = n.children ∧
    (openAtDepth n d).opn = d ∧
    (render (toggleOpen n)).openClass = (toggleOpen n).isOpen ∧
    (render (openAtDepth n d)).openClass = decide (d ≠ 0) := by
  have h1 : (n.setIsOpenRaw (some (!n.isOpen))).rendered = false := by
    simpa using hr
  have ht : toggleOpen n = n.setIsOpenRaw (some (!n.isOpen)) := by
    simp only [toggleOpen]
    rw [if_neg (by simpa using hr)]
  have h2 : ((n.setOpn d).setIsOpenRaw (some (decide (d ≠ 0)))).rendered =
      false := by simpa using hr
  have ho : openAtDepth n d =
      (n.setOpn d).setIsOpenRaw (some (decide (d ≠ 0))) := by
    simp only [openAtDepth]
    rw [if_neg (by omega : ¬ d < 0), if_neg (by simpa using hr)]
  refine ⟨ht, ?_, ho, ?_, ?_, render_openClass _, ?_⟩
  · rw [ht]; simp
  · rw [ho]; simp
  · rw [ho]; simp
  · rw [render_openClass, ho, NodeState.isOpen_setIsOpenRaw_some]

/-- C10 witness: an unrendered node over the demo object, with depth 2. -/
theorem c10_witness :
    (construct demoValue 1 noOptionsConfig none).rendered = false ∧
    (0:Int) ≤ 2 ∧
    (toggleOpen (construct demoValue 1 noOptionsConfig none) =
      (construct demoValue 1 noOptionsConfig none).setIsOpenRaw
        (some (!(construct demoValue 1 noOptionsConfig none).isOpen)) ∧
     (toggleOpen (construct demoValue 1 noOptionsConfig none)).children =
      (construct demoValue 1 noOptionsConfig none).children ∧
     openAtDepth (construct demoValue 1 noOptionsConfig none) 2 =
      ((construct demoValue 1 noOptionsConfig none).setOpn 2).setIsOpenRaw
        (some (decide ((2:Int) ≠ 0))) ∧
     (openAtDepth (construct demoValue 1 noOptionsConfig none) 2).children =
      (construct demoValue 1 noOptionsConfig none).children ∧
     (openAtDepth (construct demoValue 1 noOptionsConfig none) 2).opn = 2 ∧
     (render (toggleOpen (construct demoValue 1 noOptionsConfig
        none))).openClass =
      (toggleOpen (construct demoValue 1 noOptionsConfig none)).isOpen ∧
     (render (openAtDepth (construct demoValue 1 noOptionsConfig none)
        2)).openClass = decide ((2:Int) ≠ 0)) :=
  ⟨rfl, by decide,
    c10_unrendered_ops_safe (construct demoValue 1 noOptionsConfig none) 2
      rfl (by decide)⟩

/-- C4: on a rendered non-empty node with an empty children container,
animated attach (with the frame-yield primitive modelled by its
synchronous fallback) materializes exactly one rendered child per key, in
the original key order, with the child count equal to the key count; the
flush threshold only affects pacing, not the result. -/
theorem c4_animated_attach_materializes_all (n : NodeState)
    (hr : n.rendered = true) (he : n.isEmpty = false)
    (hk : n.children = []) :
    (appendChildren n true).children =
      n.keys.map (fun k =>
        render (construct (childAt n.json k) (n.opn - 1) n.config (some k))) ∧
    (appendChildren n true).children.length = n.keys.length := by
  have h := appendChildren_children_of n true hr he
  rw [hk, List.nil_append] at h
  have hmap : buildKids n.config n.json n.opn =
      n.keys.map (fun k =>
        render (construct (childAt n.json k) (n.opn - 1) n.config (some k))) := by
    rw [buildKids_eq_map]
    rfl
  rw [h, hmap]
  exact ⟨rfl, List.length_map _ _⟩

/-- C4 witness: the rendered, closed twelve-field node (the loop crosses
the flush threshold of 10) materializes all twelve children on animated
attach. -/
theorem c4_witness :
    (render (construct wideValue 0 noOptionsConfig none)).rendered = true ∧
    (render (construct wideValue 0 noOptionsConfig none)).isEmpty = false ∧
    (render (construct wideValue 0 noOptionsConfig none)).children = [] ∧
    ((appendChildren (render (construct wideValue 0 noOptionsConfig none))
        true).children =
      (render (construct wideValue 0 noOptionsConfig none)).keys.map (fun k =>
        render (construct
          (childAt (render (construct wideValue 0 noOptionsConfig none)).json k)
          ((render (construct wideValue 0 noOptionsConfig none)).opn - 1)
          (render (construct wideValue 0 noOptionsConfig none)).config
          (some k))) ∧
     (appendChildren (render (construct wideValue 0 noOptionsConfig none))
        true).children.length =
      (render (construct wideValue 0 noOptionsConfig none)).keys.length) :=
  ⟨rfl, rfl, rfl,
    c4_animated_attach_materializes_all
      (render (construct wideValue 0 noOptionsConfig none)) rfl rfl rfl⟩

/-- C3: on a rendered node, `openAtDepth(0)` followed by `openAtDepth(d)`
with `d ≥ 1` yields the same effective openness and the same recursively
constructed children as rendering a freshly constructed node over the same
value with budget `d` and the same shared configuration and key; no
residual state from the prior expansion remains in these observables. -/
theorem c3_openAtDepth_reset_equals_fresh (n : NodeState) (d : Int)
    (hr : n.rendered = true) (hd : 1 ≤ d) :
    (openAtDepth (openAtDepth n 0) d).isOpen =
      (render (construct n.json d n.config n.key)).isOpen ∧
    (openAtDepth (openAtDepth n 0) d).children =
      (render (construct n.json d n.config n.key)).children := by
  have hz := openAtDepth_zero_eq n hr
  have hzr : (openAtDepth n 0).rendered = true := by
    rw [hz]; simpa [removeChildren_core] using hr
  have hp := openAtDepth_pos_eq (openAtDepth n 0) d hzr hd
  set rr := removeChildren (((openAtDepth n 0).setOpn d).setIsOpenRaw
    (some true)) false with hrrdef
  have hcore : rr.core =
      { n.core with opn := d, isOpenRaw := some true, openClass := false } := by
    rw [hrrdef, removeChildren_core, hz]
    simp [removeChildren_core]
  have hrend : rr.rendered = true := by simpa [hcore] using hr
  have hopen : rr.isOpen = true := by
    rw [NodeState.isOpen_eq, hcore]
  have hch : rr.children = [] := by
    rw [hrrdef]
    exact removeChildren_children_of_rendered _ _ (by simpa using hzr)
  have hcfg : rr.config = n.config := by simp [hcore]
  have hjson : rr.json = n.json := by simp [hcore]
  have hopn : rr.opn = d := by simp [hcore]
  have hkeysrr : rr.keys = keysOf n.core.config n.core.json := by
    rw [NodeState.keys_eq, hcore]
  have hkeysC : (construct n.json d n.config n.key).keys =
      keysOf n.core.config n.core.json := keysOf_applyDefaults _ _
  have hiso : (openAtDepth (openAtDepth n 0) d).isOpen = true := by
    rw [hp, NodeState.isOpen_setOpenClass,
      isOpen_of_core_eq (appendChildren_core _ _), hopen]
  have hisoR : (render (construct n.json d n.config n.key)).isOpen = true := by
    rw [render_isOpen]
    show decide (0 < d) = true
    exact decide_eq_true (by omega)
  refine ⟨by rw [hiso, hisoR], ?_⟩
  cases hE : (keysOf n.core.config n.core.json).isEmpty with
  | true =>
    have hrrE : rr.isEmpty = true := by
      rw [NodeState.isEmpty_eq_keys, hkeysrr, hE]
    have hcond : (!rr.rendered || rr.isEmpty) = true := by simp [hrrE]
    have happ : appendChildren rr (attachAnimatedFlag rr) = rr := by
      unfold appendChildren
      rw [if_pos hcond]
    have hcE : (construct n.json d n.config n.key).isEmpty = true := by
      rw [NodeState.isEmpty_eq_keys, hkeysC, hE]
    have hcondR : ((construct n.json d n.config n.key).isObject &&
        (construct n.json d n.config n.key).isOpen &&
        !(construct n.json d n.config n.key).isEmpty) = false := by
      rw [hcE]; simp
    rw [hp, NodeState.setOpenClass_children, happ, hch, render_children,
      hcondR]
    simp
  | false =>
    have hrrE : rr.isEmpty = false := by
      rw [NodeState.isEmpty_eq_keys, hkeysrr, hE]
    have happ := appendChildren_children_of rr (attachAnimatedFlag rr)
      hrend hrrE
    rw [hch, List.nil_append, hcfg, hjson, hopn] at happ
    have hKne : keysOf n.core.config n.core.json ≠ [] :=
      List.isEmpty_eq_false.mp hE
    have hobj : Json.isObject n.core.json = true :=
      isObject_of_keysOf_ne_nil hKne
    have hcIsO : (construct n.json d n.config n.key).isObject = true := hobj
    have hcOpen : (construct n.json d n.config n.key).isOpen = true := by
      show decide (0 < d) = true
      exact decide_eq_true (by omega)
    have hcE : (construct n.json d n.config n.key).isEmpty = false := by
      rw [NodeState.isEmpty_eq_keys, hkeysC, hE]
    have hccfg : (construct n.json d n.config n.key).config =
        applyDefaults n.config := rfl
    have hcjson : (construct n.json d n.config n.key).json = n.json := rfl
    have hcopn : (construct n.json d n.config n.key).opn = d := rfl
    rw [hp, NodeState.setOpenClass_children, happ, render_children,
      hcIsO, hcOpen, hcE]
    simp only [Bool.not_false, Bool.and_self, Bool.and_true, if_true]
    rw [hccfg, hcjson, hcopn, buildKids_applyDefaults]

/-- C3 witness: instantiated on the rendered, collapsed demo node with
depth 1. -/
theorem c3_witness :
    (render (construct demoValue 0 noOptionsConfig none)).rendered = true ∧
    (1:Int) ≤ 1 ∧
    ((openAtDepth (openAtDepth (render (construct demoValue 0
        noOptionsConfig none)) 0) 1).isOpen =
      (render (construct (render (construct demoValue 0 noOptionsConfig
        none)).json 1 (render (construct demoValue 0 noOptionsConfig
        none)).config (render (construct demoValue 0 noOptionsConfig
        none)).key)).isOpen ∧
     (openAtDepth (openAtDepth (render (construct demoValue 0
        noOptionsConfig none)) 0) 1).children =
      (render (construct (render (construct demoValue 0 noOptionsConfig
        none)).json 1 (render (construct demoValue 0 noOptionsConfig
        none)).config (render (construct demoValue 0 noOptionsConfig
        none)).key)).children) :=
  ⟨rfl, by decide,
    c3_openAtDepth_reset_equals_fresh
      (render (construct demoValue 0 noOptionsConfig none)) 1 rfl (by decide)⟩
